import Mathlib

/-!
A shallow embedding of the transactional record-and-ledger core of the
`EnhancedERP` application (`src/human_resources.py`).

The sqlite tables become lists of records inside a `DB` value; the Tk
mutable fields of the application object (`current_user`, `user_permissions`, the
wall clock used for every `datetime.now().strftime(...)` timestamp) become the
fields of an `AppState`.  Each database-mutating method of the class becomes a
pure function `AppState → ... → Except ErrorKind AppState`: the Python methods
wrap their cursor work in `try/except` and only call `self.conn.commit()` at
the very end, so a raised exception (or an early `return` after a
`messagebox.showerror`) leaves no committed change — modelled here by
returning `.error e` and keeping the old state of the caller.

REAL columns are modelled by `ℚ`, INTEGER flag columns (`is_active`,
`can_view`, ...) by `Int` exactly as stored, TEXT timestamps by `String`
filled from the `now` clock field, and the calendar dates compared by the
dashboard queries by `Int` day numbers (the source manipulates them as Python
`date` values with `timedelta` arithmetic).
-/

namespace ERP

/-- Row of the `users` table (columns used by the embedded operations:
`id, username, password, name, email, role, is_active, last_login`). -/
structure User where
  id : Nat
  username : String
  password : String
  name : String
  email : String
  role : String
  is_active : Int
  last_login : Option String
deriving DecidableEq

/-- Row of the `permissions` table; the capability flags are INTEGER columns. -/
structure Perm where
  user_id : Nat
  module : String
  can_view : Int
  can_create : Int
  can_edit : Int
  can_delete : Int
deriving DecidableEq

/-- The per-module capability record built by `do_login` from a `permissions`
row via `bool(row[i])` (Python truthiness: any non-zero INTEGER is `True`). -/
structure Caps where
  view : Bool
  create : Bool
  edit : Bool
  delete : Bool
deriving DecidableEq

/-- Row of the `customers` table (the columns written by `save_customer`). -/
structure Customer where
  id : Nat
  code : String
  name : String
  contact_person : Option String
  address : Option String
  city : Option String
  state : Option String
  country : Option String
  postal_code : Option String
  phone : Option String
  email : Option String
  tax_id : Option String
  payment_terms : Option Int
  credit_limit : Option ℚ
  currency : Option String
  status : String
  notes : Option String
  created_by : Option Nat
  created_at : Option String
  updated_at : Option String
deriving DecidableEq

/-- Row of the `products` table (the columns read by the dashboard queries
and the stock invariant). -/
structure Product where
  id : Nat
  sku : String
  name : String
  purchase_price : ℚ
  sale_price : ℚ
  min_stock_level : ℚ
  current_stock : ℚ
  status : String
deriving DecidableEq

/-- Row of the `sales_orders` table.  This table is not created by
`create_tables`; its columns are the ones the queries in the source read
(`id, order_number, customer_id, order_date, status, payment_status,
total_amount, updated_at`), as §6 of the spec notes ("implied by the Engine
though not shown verbatim").  `order_date` is an `Int` day number. -/
structure SalesOrder where
  id : Nat
  order_number : String
  customer_id : Nat
  order_date : Int
  status : String
  payment_status : String
  total_amount : ℚ
  updated_at : Option String
deriving DecidableEq

/-- Row of the `sales_order_items` table (columns read by the queries in the
source; like `sales_orders` the CREATE statement is not in the source). -/
structure SalesOrderItem where
  id : Nat
  order_id : Nat
  product_id : Nat
  quantity : ℚ
  unit_price : ℚ
  discount_percent : ℚ
  tax_percent : ℚ
  line_total : ℚ
deriving DecidableEq

/-- Row of the `inventory_movements` table.  No method of the source ever
inserts into this table, so only the claim-relevant columns are kept. -/
structure InventoryMovement where
  id : Nat
  product_id : Nat
  movement_type : String
  quantity : ℚ
  reference_id : Option Nat
deriving DecidableEq

/-- Row of the `audit_log` table (the five columns every
`INSERT INTO audit_log` in the source supplies). -/
structure AuditEntry where
  user_id : Nat
  action : String
  table_name : String
  record_id : Nat
  created_at : String
deriving DecidableEq

/-- The `self.current_user` tuple `(id, username, name, email, role)`
fetched by `do_login`. -/
structure CurrentUser where
  id : Nat
  username : String
  name : String
  email : String
  role : String
deriving DecidableEq

/-- The embedded database: one list per sqlite table, in rowid order, plus
the AUTOINCREMENT counter for `customers` (the one table the embedded
operations insert business rows into; `cursor.lastrowid` of such an insert
is the value of this counter). -/
structure DB where
  users : List User
  permissions : List Perm
  customers : List Customer
  products : List Product
  sales_orders : List SalesOrder
  sales_order_items : List SalesOrderItem
  inventory_movements : List InventoryMovement
  audit_log : List AuditEntry
  customers_seq : Nat
deriving DecidableEq

/-- Application state: the database plus the mutable fields of the
`EnhancedERP` object that the embedded methods read or write
(`self.current_user`, `self.user_permissions`) and the clock `now` that
stands for `datetime.now().strftime("%Y-%m-%d %H:%M:%S")`. -/
structure AppState where
  db : DB
  current_user : Option CurrentUser
  user_permissions : List (String × Caps)
  now : String
deriving DecidableEq

/-- Failure outcomes of the embedded operations.  The Python methods report
failures through `messagebox.showerror` and an early `return` (or a caught
exception); since `conn.commit()` is only ever reached on the success path,
every failure leaves the committed database unchanged, which the embedding
renders as an `Except.error` carrying one of these values. -/
inductive ErrorKind where
  | validationError : List String → ErrorKind
  | authenticationError : String → ErrorKind
  | referentialIntegrityError : ErrorKind
  | constraintViolation : String → ErrorKind
  | noCurrentUser : ErrorKind
deriving DecidableEq

instance {ε α : Type} [DecidableEq ε] [DecidableEq α] : DecidableEq (Except ε α)
  | .error e1, .error e2 => decidable_of_iff (e1 = e2) (by simp)
  | .error _, .ok _ => .isFalse (by simp)
  | .ok _, .error _ => .isFalse (by simp)
  | .ok a, .ok b => decidable_of_iff (a = b) (by simp)

/-- The state a run left behind, or `none` when it failed (no commit).
`hash_password` (line 265) is `hashlib.sha256(password.encode()).hexdigest()`;
the digest function is opaque to every claim, so the embedded operations take
it as an explicit parameter `hash`. -/
def okState {ε : Type} (r : Except ε AppState) : Option AppState :=
  match r with
  | .ok s => some s
  | .error _ => none

/-- Append one `audit_log` row — the shape of every
`INSERT INTO audit_log (user_id, action, table_name, record_id, created_at)`
in the source. -/
def auditInsert (db : DB) (uid : Nat) (action tbl : String) (rid : Nat)
    (now : String) : DB :=
  { db with audit_log := db.audit_log ++ [⟨uid, action, tbl, rid, now⟩] }

/-- `update_order_status` (lines 793–819): one UPDATE of
`sales_orders.status`/`updated_at` for the given id, then one audit row
`(update, sales_orders, order_id)`, then commit.  There is no transition
check, no `inventory_movements` insert and no `products.current_stock`
update anywhere in the method.  `self.current_user[0]` raises when nobody is
logged in; the surrounding `except` then reports an error and the
transaction is never committed (`.error .noCurrentUser`). -/
def update_order_status (st : AppState) (order_id : Nat) (new_status : String) :
    Except ErrorKind AppState :=
  match st.current_user with
  | none => .error .noCurrentUser
  | some cu =>
    let orders := st.db.sales_orders.map fun o =>
      if o.id = order_id then { o with status := new_status, updated_at := some st.now } else o
    .ok { st with
      db := auditInsert { st.db with sales_orders := orders }
        cu.id "update" "sales_orders" order_id st.now }

/-- The dialog statuses every customer row may take
(the CHECK constraint on the status column). -/
def customerStatuses : List String := ["Active", "Inactive", "On Hold"]

/-- `value or None`: the source turns an empty entry-widget string into SQL
NULL before writing it. -/
def strOrNone (s : String) : Option String := if s = "" then none else some s

/-- The field values of the customer dialog as read back by `save_customer`
(`self.customer_form_vars[...].get()`).  The numeric fields carry the already
parsed `int(...)` / `float(...)` value or `none` for a blank entry. -/
structure CustomerForm where
  code : String
  name : String
  contact_person : String
  address : String
  city : String
  state : String
  country : String
  postal_code : String
  phone : String
  email : String
  tax_id : String
  payment_terms : Option Int
  credit_limit : Option ℚ
  currency : String
  status : String
  notes : String
deriving DecidableEq

/-- The `errors` list built at the top of `save_customer` (lines 1453–1459):
one message per empty required field, in source order. -/
def validationErrors (form : CustomerForm) : List String :=
  (if form.code = "" then ["Customer code is required"] else []) ++
  (if form.name = "" then ["Customer name is required"] else []) ++
  (if form.status = "" then ["Status is required"] else [])

/-- Overwrite a customer row with the values of the dialog — the column list of
the UPDATE statement in `save_customer` (everything except `id`,
`created_at`, `created_by`). -/
def applyForm (now : String) (form : CustomerForm) (c : Customer) : Customer :=
  { c with
    code := form.code
    name := form.name
    contact_person := strOrNone form.contact_person
    address := strOrNone form.address
    city := strOrNone form.city
    state := strOrNone form.state
    country := strOrNone form.country
    postal_code := strOrNone form.postal_code
    phone := strOrNone form.phone
    email := strOrNone form.email
    tax_id := strOrNone form.tax_id
    payment_terms := form.payment_terms
    credit_limit := form.credit_limit
    currency := strOrNone form.currency
    status := form.status
    notes := some form.notes
    updated_at := some now }

/-- The row built by the INSERT branch of `save_customer`:
`created_at = updated_at = now`, `created_by` = the id of the logged-in user. -/
def newCustomer (cid : Nat) (now : String) (creator : Option Nat)
    (form : CustomerForm) : Customer :=
  applyForm now form
    { id := cid, code := form.code, name := form.name, contact_person := none
      address := none, city := none, state := none, country := none
      postal_code := none, phone := none, email := none, tax_id := none
      payment_terms := none, credit_limit := none, currency := none
      status := form.status, notes := none
      created_by := creator, created_at := some now, updated_at := some now }

/-- `save_customer` (lines 1449–1540).  First the handwritten validation: an
empty `code`, `name` or `status` aborts with the full message list before
anything is written.  Then the sqlite constraints on the UPDATE/INSERT
itself: `CHECK(status IN (...))` and `code TEXT UNIQUE` raise inside the
`try`, are reported generically ("Failed to save customer") and commit
nothing (`.constraintViolation`; for an UPDATE, sqlite only evaluates them
when a row actually matches `WHERE id=?`).  Finally the audit row
(`create`/`update`, `customers`, the affected row id — for an insert,
`cursor.lastrowid`) and the single commit.  The audit INSERT dereferences
`self.current_user[0]`, which raises when nobody is logged in, so that case
too ends with nothing committed. -/
def save_customer (st : AppState) (customer_id : Option Nat)
    (form : CustomerForm) : Except ErrorKind AppState :=
  if validationErrors form = [] then
    match customer_id with
    | some cid =>
      if (∃ c ∈ st.db.customers, c.id = cid) ∧ form.status ∉ customerStatuses then
        .error (.constraintViolation "customers.status")
      else if (∃ c ∈ st.db.customers, c.id = cid) ∧
          ∃ c ∈ st.db.customers, c.id ≠ cid ∧ c.code = form.code then
        .error (.constraintViolation "customers.code")
      else
        match st.current_user with
        | none => .error .noCurrentUser
        | some cu =>
          let customers := st.db.customers.map fun c =>
            if c.id = cid then applyForm st.now form c else c
          .ok { st with
            db := auditInsert { st.db with customers := customers }
              cu.id "update" "customers" cid st.now }
    | none =>
      if form.status ∉ customerStatuses then
        .error (.constraintViolation "customers.status")
      else if ∃ c ∈ st.db.customers, c.code = form.code then
        .error (.constraintViolation "customers.code")
      else
        match st.current_user with
        | none => .error .noCurrentUser
        | some cu =>
          let cid := st.db.customers_seq
          .ok { st with
            db := auditInsert
              { st.db with
                customers := st.db.customers ++ [newCustomer cid st.now (some cu.id) form]
                customers_seq := cid + 1 }
              cu.id "create" "customers" cid st.now }
  else .error (.validationError (validationErrors form))

/-- `delete_customer` (lines 1542–1582): count the `sales_orders` rows that
reference the customer; any order blocks the delete ("Cannot delete customer
with existing orders") before the DELETE runs.  Otherwise DELETE the row,
append the audit entry `(delete, customers, customer_id)` and commit. -/
def delete_customer (st : AppState) (customer_id : Nat) :
    Except ErrorKind AppState :=
  if 0 < (st.db.sales_orders.filter fun o => o.customer_id = customer_id).length then
    .error .referentialIntegrityError
  else
    match st.current_user with
    | none => .error .noCurrentUser
    | some cu =>
      .ok { st with
        db := auditInsert
          { st.db with customers := st.db.customers.filter fun c => c.id ≠ customer_id }
          cu.id "delete" "customers" customer_id st.now }

/-- The WHERE clause of the credential query in `do_login`:
`username=? AND password=? AND is_active=1` with the password already run
through `hash_password`. -/
def userMatches (hash : String → String) (username password : String)
    (u : User) : Bool :=
  u.username == username && u.password == hash password && u.is_active == 1

/-- The per-module capability dictionary `do_login` builds from the
`permissions` rows of the user. -/
def loadPermissions (perms : List Perm) (uid : Nat) : List (String × Caps) :=
  (perms.filter fun p => p.user_id = uid).map fun p =>
    (p.module, ⟨p.can_view != 0, p.can_create != 0, p.can_edit != 0, p.can_delete != 0⟩)

/-- `do_login` (lines 1663–1732).  Empty username or password aborts with
the "Please enter both..." message before the credential query runs.
Otherwise the first `users` row matching `userMatches` (the `fetchone` of
the SELECT) becomes `self.current_user`; its permission rows are loaded,
`last_login` is stamped, one audit row `(login, users, id)` is appended
and everything commits.  No matching row: "Invalid username or password",
nothing written. -/
def do_login (st : AppState) (hash : String → String)
    (username password : String) : Except ErrorKind AppState :=
  if username = "" ∨ password = "" then
    .error (.validationError ["Please enter both username and password"])
  else
    match st.db.users.find? (userMatches hash username password) with
    | none => .error (.authenticationError "Invalid username or password")
    | some u =>
      let users := st.db.users.map fun v =>
        if v.id = u.id then { v with last_login := some st.now } else v
      .ok { st with
        db := auditInsert { st.db with users := users } u.id "login" "users" u.id st.now
        current_user := some ⟨u.id, u.username, u.name, u.email, u.role⟩
        user_permissions := loadPermissions st.db.permissions u.id }

/-- `logout` (lines 1743–1767), after the confirmation dialog: when someone
is logged in, append one audit row `(logout, users, id)` and commit;
then clear `current_user` and `user_permissions`. -/
def logout (st : AppState) : AppState :=
  let db := match st.current_user with
    | some cu => auditInsert st.db cu.id "logout" "users" cu.id st.now
    | none => st.db
  { st with db := db, current_user := none, user_permissions := [] }

/-- `SUM(total_amount) FROM sales_orders WHERE order_date BETWEEN ? AND ?`
(BETWEEN is inclusive on both ends). -/
def period_sales_total (db : DB) (s e : Int) : ℚ :=
  ((db.sales_orders.filter fun o => decide (s ≤ o.order_date ∧ o.order_date ≤ e)).map
    SalesOrder.total_amount).sum

/-- The Revenue Growth card of `load_dashboard_data` (lines 558–572):
the previous period starts `(end - start).days` days before `start` and ends
the day before `start`; `growth = (sales_total - prev_sales) / prev_sales *
100 if prev_sales > 0 else 0`. -/
def revenue_growth (db : DB) (s e : Int) : ℚ :=
  let sales_total := period_sales_total db s e
  let prev_sales := period_sales_total db (s - (e - s)) (s - 1)
  if 0 < prev_sales then (sales_total - prev_sales) / prev_sales * 100 else 0

/-- `min_stock_level - current_stock`, the sort key of the stock-alert
query. -/
def stockDeficit (p : Product) : ℚ := p.min_stock_level - p.current_stock

/-- The WHERE clause of the stock-alert query:
`current_stock <= min_stock_level AND status = Active`. -/
def lowStockFilter (db : DB) : List Product :=
  db.products.filter fun p =>
    decide (p.current_stock ≤ p.min_stock_level ∧ p.status = "Active")

/-- `ORDER BY (min_stock_level - current_stock) DESC`: `a` may precede `b`
exactly when the deficit of `a` is at least the deficit of `b`. -/
def deficitGE (a b : Product) : Prop := stockDeficit b ≤ stockDeficit a

instance : DecidableRel deficitGE := fun a b =>
  inferInstanceAs (Decidable (stockDeficit b ≤ stockDeficit a))

instance : IsTotal Product deficitGE :=
  ⟨fun a b => (le_total (stockDeficit b) (stockDeficit a)).imp id id⟩

instance : IsTrans Product deficitGE :=
  ⟨fun _ _ _ h1 h2 => le_trans h2 h1⟩

/-- The Stock Alerts query of `load_dashboard_data` (lines 643–660):
filter, sort by deficit descending, `LIMIT 10`. -/
def low_stock_alerts (db : DB) : List Product :=
  (List.insertionSort deficitGE (lowStockFilter db)).take 10

/-- Project the `inventory_movements` table left by a run. -/
def movementsOf (r : Except ErrorKind AppState) : Option (List InventoryMovement) :=
  (okState r).map fun s => s.db.inventory_movements

/-- Project the `current_stock` column left by a run. -/
def stocksOf (r : Except ErrorKind AppState) : Option (List ℚ) :=
  (okState r).map fun s => s.db.products.map Product.current_stock

/-- Project the `sales_orders.status` column left by a run. -/
def orderStatusesOf (r : Except ErrorKind AppState) : Option (List String) :=
  (okState r).map fun s => s.db.sales_orders.map SalesOrder.status

/-- Project the `audit_log` table left by a run. -/
def auditOf (r : Except ErrorKind AppState) : Option (List AuditEntry) :=
  (okState r).map fun s => s.db.audit_log

/-- Project the `customers` table left by a run. -/
def customersOf (r : Except ErrorKind AppState) : Option (List Customer) :=
  (okState r).map fun s => s.db.customers

/-- Project the `current_user` field left by a run. -/
def currentUserOf (r : Except ErrorKind AppState) : Option (Option CurrentUser) :=
  (okState r).map fun s => s.current_user

/-- Recognise the `.error (.validationError _)` outcome. -/
def isValidationError (r : Except ErrorKind AppState) : Bool :=
  match r with
  | .error (.validationError _) => true
  | _ => false

/-- The bootstrap `self.current_user` tuple of the admin created by
`create_tables`. -/
def adminCU : CurrentUser :=
  ⟨1, "admin", "Administrator", "admin@erp.com", "Admin"⟩

/-- An empty database (fresh store, next customer rowid 1). -/
def emptyDB : DB := ⟨[], [], [], [], [], [], [], [], 1⟩

/-- A customer row with only the required columns filled. -/
def mkCustomer (cid : Nat) (code cname : String) : Customer :=
  { id := cid, code := code, name := cname, contact_person := none
    address := none, city := none, state := none, country := none
    postal_code := none, phone := none, email := none, tax_id := none
    payment_terms := none, credit_limit := none, currency := none
    status := "Active", notes := none
    created_by := none, created_at := some "2026-01-01 00:00:00", updated_at := none }

/-- Product #1: 10 units in stock, minimum level 1. -/
def prod1 : Product :=
  ⟨1, "SKU1", "Widget", 2, 5, 1, 10, "Active"⟩

/-- Sales order #1 for customer #1 (one line item, total 150). -/
def order1 (status : String) : SalesOrder :=
  ⟨1, "SO-1", 1, 100, status, "Unpaid", 150, none⟩

/-- The single line item of order #1: 3 × product #1 at 50. -/
def item1 : SalesOrderItem := ⟨1, 1, 1, 3, 50, 0, 0, 150⟩

/-- A logged-in state with customer #1, product #1 and order #1 in the given
status. -/
def orderState (status : String) : AppState :=
  { db := { emptyDB with
      customers := [mkCustomer 1 "C001" "Acme"]
      customers_seq := 2
      products := [prod1]
      sales_orders := [order1 status]
      sales_order_items := [item1] }
    current_user := some adminCU
    user_permissions := [("all", ⟨true, true, true, true⟩)]
    now := "2026-02-01 12:00:00" }

end ERP

namespace ERP

/-- C1.  The `update_order_status` run that takes order #1 (one item of
3 × product #1, product stock 10) from `Draft` into `Shipped` succeeds, yet
inserts no Inventory Movement row and leaves `current_stock` at 10: the
method (lines 793–819) writes only the new status and one audit row, so the
claimed `Sale` movements, the stock decrement and the resulting
`current_stock = Σ movements` invariant do not exist in the code. -/
theorem c1_ship_emits_no_movements :
    movementsOf (update_order_status (orderState "Draft") 1 "Shipped") = some []
    ∧ stocksOf (update_order_status (orderState "Draft") 1 "Shipped") = some [(10 : ℚ)]
    ∧ orderStatusesOf (update_order_status (orderState "Draft") 1 "Shipped")
        = some ["Shipped"]
    ∧ auditOf (update_order_status (orderState "Draft") 1 "Shipped")
        = some [⟨1, "update", "sales_orders", 1, "2026-02-01 12:00:00"⟩] := by
  decide

/-- C2.  `update_order_status` applies any requested status unconditionally:
asked to move order #1 from `Completed` back to `Draft` it succeeds, changes
the stored status to `Draft` and logs the ordinary `update` audit row —
there is no transition check and no `InvalidTransitionError` anywhere in the
source, so the illegal `Completed → Draft` transition does not fail. -/
theorem c2_completed_to_draft_succeeds :
    orderStatusesOf (update_order_status (orderState "Completed") 1 "Draft")
        = some ["Draft"]
    ∧ auditOf (update_order_status (orderState "Completed") 1 "Draft")
        = some [⟨1, "update", "sales_orders", 1, "2026-02-01 12:00:00"⟩] := by
  decide

/-- A logged-in state whose principal holds no capability at all
(`user_permissions` empty), with an order-free customer #7 alongside the
data of `orderState`. -/
def noCapsState : AppState :=
  let base := orderState "Draft"
  { base with
    db := { base.db with customers := base.db.customers ++ [mkCustomer 7 "C007" "Bystander"] }
    user_permissions := [] }

/-- C5.  No mutating operation consults the permission matrix: with
`user_permissions` completely empty, `delete_customer` still removes
customer #7 and `update_order_status` still ships order #1.  The source
loads `self.user_permissions` in `do_login` but never reads it before a
write — there is no `authorize` call and no authorization error on any
mutation path. -/
theorem c5_mutations_ignore_permissions :
    customersOf (delete_customer noCapsState 7) = some [mkCustomer 1 "C001" "Acme"]
    ∧ orderStatusesOf (update_order_status noCapsState 1 "Shipped") = some ["Shipped"] := by
  decide

/-- C10.  `do_login` with an empty username or an empty password returns the
"Please enter both username and password" error for every database, clock
and digest function alike — the guard (lines 1668–1670) runs before the
credential SELECT, so no lookup happens, nothing is written, and the state
(including `current_user`, `user_permissions`, `last_login` and the audit
log) is left untouched. -/
theorem c10_login_empty_fields (st : AppState) (hash : String → String)
    (u p : String) (h : u = "" ∨ p = "") :
    do_login st hash u p
      = .error (.validationError ["Please enter both username and password"]) := by
  unfold do_login
  rw [if_pos h]

/-- Witness for C10 at a concrete input: empty username, non-empty
password, the `orderState` database. -/
theorem c10_login_empty_fields_witness :
    do_login (orderState "Draft") (fun s => s) "" "admin123"
      = .error (.validationError ["Please enter both username and password"]) :=
  c10_login_empty_fields (orderState "Draft") (fun s => s) "" "admin123" (Or.inl rfl)

/-- C7.  The Revenue Growth card: writing `prev` for the previous-period
total `period_sales_total db (s - (e - s)) (s - 1)` and `cur` for the
current-period total, the computed growth is `0` when `prev = 0` (the
division is never attempted), equals `(cur - prev) / prev * 100` whenever
`prev > 0`, and in particular `prev = 100`, `cur = 150` gives `50`. -/
theorem c7_growth (db : DB) (s e : Int) :
    (period_sales_total db (s - (e - s)) (s - 1) = 0 → revenue_growth db s e = 0)
    ∧ (0 < period_sales_total db (s - (e - s)) (s - 1) →
        revenue_growth db s e =
          (period_sales_total db s e - period_sales_total db (s - (e - s)) (s - 1)) /
            period_sales_total db (s - (e - s)) (s - 1) * 100)
    ∧ (period_sales_total db (s - (e - s)) (s - 1) = 100 →
        period_sales_total db s e = 150 → revenue_growth db s e = 50) := by
  refine ⟨fun h0 => ?_, fun hpos => ?_, fun hprev hcur => ?_⟩
  · unfold revenue_growth
    rw [h0, if_neg (lt_irrefl 0)]
  · unfold revenue_growth
    rw [if_pos hpos]
  · unfold revenue_growth
    rw [hprev, hcur, if_pos (by norm_num)]
    norm_num

/-- A database whose previous-period total (window `[1, 9]` for the range
`[10, 19]`) is 100 and whose current-period total is 150. -/
def growthDB : DB :=
  { emptyDB with sales_orders :=
      [⟨1, "SO-1", 1, 5, "Completed", "Paid", 100, none⟩,
       ⟨2, "SO-2", 1, 12, "Completed", "Paid", 150, none⟩] }

/-- Witness for C7: on `growthDB` with range `[10, 19]` the previous total
is 100, the current total is 150 and the growth card shows 50. -/
theorem c7_growth_witness :
    period_sales_total growthDB ((10 : Int) - (19 - 10)) (10 - 1) = 100
    ∧ period_sales_total growthDB 10 19 = 150
    ∧ revenue_growth growthDB 10 19 = 50 :=
  ⟨by norm_num [period_sales_total, growthDB, emptyDB, List.filter],
   by norm_num [period_sales_total, growthDB, emptyDB, List.filter],
   (c7_growth growthDB 10 19).2.2
     (by norm_num [period_sales_total, growthDB, emptyDB, List.filter])
     (by norm_num [period_sales_total, growthDB, emptyDB, List.filter])⟩

/-- C4.  `delete_customer` for a logged-in principal: when at least one
`sales_orders` row references the customer it fails with the
referential-integrity error (nothing is committed, so the `customers` table
is untouched); when no order references the customer it succeeds, removes
exactly the rows with that id (the `DELETE ... WHERE id=?`) and appends the
single `delete` audit row. -/
theorem c4_delete_customer_referential (st : AppState) (cu : CurrentUser)
    (cid : Nat) (hcu : st.current_user = some cu) :
    (0 < (st.db.sales_orders.filter fun o => o.customer_id = cid).length →
      delete_customer st cid = .error .referentialIntegrityError)
    ∧ ((st.db.sales_orders.filter fun o => o.customer_id = cid).length = 0 →
      customersOf (delete_customer st cid)
        = some (st.db.customers.filter fun c => c.id ≠ cid)
      ∧ auditOf (delete_customer st cid)
        = some (st.db.audit_log ++ [⟨cu.id, "delete", "customers", cid, st.now⟩])) := by
  constructor
  · intro h
    unfold delete_customer
    rw [if_pos h]
  · intro h
    unfold delete_customer
    rw [if_neg (by omega), hcu]
    simp [customersOf, auditOf, okState, auditInsert]

/-- Witness for C4: on `orderState` (order #1 references customer #1) the
delete of customer #1 is refused, while on `noCapsState` customer #7 (no
orders) is removed and audited. -/
theorem c4_delete_customer_referential_witness :
    delete_customer (orderState "Draft") 1 = .error .referentialIntegrityError
    ∧ customersOf (delete_customer noCapsState 7)
        = some (noCapsState.db.customers.filter fun c => c.id ≠ 7)
    ∧ auditOf (delete_customer noCapsState 7)
        = some (noCapsState.db.audit_log
            ++ [⟨adminCU.id, "delete", "customers", 7, noCapsState.now⟩]) :=
  ⟨(c4_delete_customer_referential (orderState "Draft") adminCU 1 rfl).1 (by decide),
   ((c4_delete_customer_referential noCapsState adminCU 7 rfl).2 (by decide)).1,
   ((c4_delete_customer_referential noCapsState adminCU 7 rfl).2 (by decide)).2⟩

/-- C6.  For non-empty credentials, `do_login` succeeds exactly when some
`users` row has the given username, the stored password equal to the digest
of the supplied secret, and `is_active = 1`.  In particular an inactive
account (`is_active ≠ 1`) never satisfies the right-hand side, so it fails
authentication even with the correct secret. -/
theorem c6_do_login_iff (st : AppState) (hash : String → String)
    (u p : String) (hu : u ≠ "") (hp : p ≠ "") :
    (okState (do_login st hash u p)).isSome = true
      ↔ ∃ usr ∈ st.db.users,
          usr.username = u ∧ usr.password = hash p ∧ usr.is_active = 1 := by
  unfold do_login
  rw [if_neg (by simp [hu, hp])]
  cases hfind : st.db.users.find? (userMatches hash u p) with
  | none =>
    simp only [okState, Option.isSome_none, Bool.false_eq_true, false_iff]
    rintro ⟨usr, hmem, h1, h2, h3⟩
    have hnone := List.find?_eq_none.mp hfind usr hmem
    exact hnone (by simp [userMatches, h1, h2, h3])
  | some usr =>
    simp only [okState, Option.isSome_some, true_iff]
    refine ⟨usr, List.mem_of_find?_eq_some hfind, ?_⟩
    have hm := List.find?_some hfind
    simpa [userMatches, and_assoc] using hm

/-- `users` table for the C6 witness: an active admin and an inactive
account, both storing the digest (`fun s => "h" ++ s`) of `"pw"`. -/
def usersState : AppState :=
  { orderState "Draft" with
    current_user := none
    db := { (orderState "Draft").db with users :=
      [⟨1, "admin", "hpw", "Administrator", "admin@erp.com", "Admin", 1, none⟩,
       ⟨2, "bob", "hpw", "Bob", "bob@erp.com", "User", 0, none⟩] } }

/-- Witness for C6: with digest `fun s => "h" ++ s`, the active admin logs
in with secret `"pw"`, while the inactive `bob` is rejected despite storing
the digest of the same, correct secret. -/
theorem c6_do_login_iff_witness :
    (okState (do_login usersState (fun s => "h" ++ s) "admin" "pw")).isSome = true
    ∧ (okState (do_login usersState (fun s => "h" ++ s) "bob" "pw")).isSome = false := by
  constructor
  · exact (c6_do_login_iff usersState (fun s => "h" ++ s) "admin" "pw"
      (by decide) (by decide)).mpr
      ⟨⟨1, "admin", "hpw", "Administrator", "admin@erp.com", "Admin", 1, none⟩,
        by decide, by decide, by decide, by decide⟩
  · have h := c6_do_login_iff usersState (fun s => "h" ++ s) "bob" "pw"
      (by decide) (by decide)
    have hno : ¬ ∃ usr ∈ usersState.db.users,
        usr.username = "bob" ∧ usr.password = (fun s => "h" ++ s) "pw"
          ∧ usr.is_active = 1 := by decide
    simpa using mt h.mp hno

/-- C3.  Every successful state-changing operation appends exactly one new
`audit_log` row, whose `table_name`/`record_id` name the affected entity:
customer insert (`create`/`customers`/the fresh rowid, which is also the
id of the appended customer row), customer update
(`update`/`customers`/the edited id), customer delete
(`delete`/`customers`/the deleted id), login
(`login`/`users`/the id of the authenticated user, who also becomes
`current_user`) and logout (`logout`/`users`/the id of the logged-in user). -/
theorem c3_audit_single_entry :
    (∀ st cu form, st.current_user = some cu → validationErrors form = [] →
      form.status ∈ customerStatuses →
      (¬ ∃ c ∈ st.db.customers, c.code = form.code) →
      auditOf (save_customer st none form)
        = some (st.db.audit_log
            ++ [⟨cu.id, "create", "customers", st.db.customers_seq, st.now⟩])
      ∧ customersOf (save_customer st none form)
        = some (st.db.customers
            ++ [newCustomer st.db.customers_seq st.now (some cu.id) form]))
    ∧ (∀ st cu cid form, st.current_user = some cu → validationErrors form = [] →
      (¬ ((∃ c ∈ st.db.customers, c.id = cid) ∧ form.status ∉ customerStatuses)) →
      (¬ ((∃ c ∈ st.db.customers, c.id = cid)
          ∧ ∃ c ∈ st.db.customers, c.id ≠ cid ∧ c.code = form.code)) →
      auditOf (save_customer st (some cid) form)
        = some (st.db.audit_log ++ [⟨cu.id, "update", "customers", cid, st.now⟩]))
    ∧ (∀ st cu cid, st.current_user = some cu →
      (st.db.sales_orders.filter fun o => o.customer_id = cid).length = 0 →
      auditOf (delete_customer st cid)
        = some (st.db.audit_log ++ [⟨cu.id, "delete", "customers", cid, st.now⟩]))
    ∧ (∀ st hash u p usr, u ≠ "" → p ≠ "" →
      st.db.users.find? (userMatches hash u p) = some usr →
      auditOf (do_login st hash u p)
        = some (st.db.audit_log ++ [⟨usr.id, "login", "users", usr.id, st.now⟩])
      ∧ currentUserOf (do_login st hash u p)
        = some (some ⟨usr.id, usr.username, usr.name, usr.email, usr.role⟩))
    ∧ (∀ st cu, st.current_user = some cu →
      (logout st).db.audit_log
        = st.db.audit_log ++ [⟨cu.id, "logout", "users", cu.id, st.now⟩]) := by
  refine ⟨?_, ?_, ?_, ?_, ?_⟩
  · intro st cu form hcu hval hstat hfresh
    unfold save_customer
    rw [if_pos hval, if_neg (not_not_intro hstat), if_neg hfresh, hcu]
    simp [auditOf, customersOf, okState, auditInsert]
  · intro st cu cid form hcu hval h1 h2
    unfold save_customer
    rw [if_pos hval]
    dsimp only
    rw [if_neg h1, if_neg h2, hcu]
    simp [auditOf, okState, auditInsert]
  · intro st cu cid hcu hord
    unfold delete_customer
    rw [if_neg (by omega), hcu]
    simp [auditOf, okState, auditInsert]
  · intro st hash u p usr hu hp hfind
    unfold do_login
    rw [if_neg (by simp [hu, hp]), hfind]
    simp [auditOf, currentUserOf, okState, auditInsert]
  · intro st cu hcu
    unfold logout
    rw [hcu]
    simp [auditInsert]

/-- The form of the C3/C9 witnesses: a fresh, fully valid customer. -/
def witForm : CustomerForm :=
  { code := "C100", name := "Newco", contact_person := "", address := ""
    city := "", state := "", country := "", postal_code := "", phone := ""
    email := "", tax_id := "", payment_terms := none, credit_limit := none
    currency := "USD", status := "Active", notes := "" }

/-- Witness for C3: each of the five operations, run at a concrete state,
appends exactly the described audit row. -/
theorem c3_audit_single_entry_witness :
    (auditOf (save_customer (orderState "Draft") none witForm)
        = some [⟨1, "create", "customers", 2, "2026-02-01 12:00:00"⟩]
      ∧ customersOf (save_customer (orderState "Draft") none witForm)
        = some ([mkCustomer 1 "C001" "Acme"]
            ++ [newCustomer 2 "2026-02-01 12:00:00" (some 1) witForm]))
    ∧ auditOf (save_customer (orderState "Draft") (some 1) witForm)
        = some [⟨1, "update", "customers", 1, "2026-02-01 12:00:00"⟩]
    ∧ auditOf (delete_customer noCapsState 7)
        = some [⟨1, "delete", "customers", 7, "2026-02-01 12:00:00"⟩]
    ∧ (auditOf (do_login usersState (fun s => "h" ++ s) "admin" "pw")
        = some [⟨1, "login", "users", 1, "2026-02-01 12:00:00"⟩]
      ∧ currentUserOf (do_login usersState (fun s => "h" ++ s) "admin" "pw")
        = some (some adminCU))
    ∧ (logout (orderState "Draft")).db.audit_log
        = [⟨1, "logout", "users", 1, "2026-02-01 12:00:00"⟩] := by
  refine ⟨⟨?_, ?_⟩, ?_, ?_, ⟨?_, ?_⟩, ?_⟩
  · exact ((c3_audit_single_entry.1 (orderState "Draft") adminCU witForm rfl
      (by decide) (by decide) (by decide)).1).trans (by decide)
  · exact ((c3_audit_single_entry.1 (orderState "Draft") adminCU witForm rfl
      (by decide) (by decide) (by decide)).2).trans (by decide)
  · exact (c3_audit_single_entry.2.1 (orderState "Draft") adminCU 1 witForm rfl
      (by decide) (by decide) (by decide)).trans (by decide)
  · exact (c3_audit_single_entry.2.2.1 noCapsState adminCU 7 rfl
      (by decide)).trans (by decide)
  · exact ((c3_audit_single_entry.2.2.2.1 usersState (fun s => "h" ++ s) "admin" "pw"
      ⟨1, "admin", "hpw", "Administrator", "admin@erp.com", "Admin", 1, none⟩
      (by decide) (by decide) (by decide)).1).trans (by decide)
  · exact ((c3_audit_single_entry.2.2.2.1 usersState (fun s => "h" ++ s) "admin" "pw"
      ⟨1, "admin", "hpw", "Administrator", "admin@erp.com", "Admin", 1, none⟩
      (by decide) (by decide) (by decide)).2).trans (by decide)
  · exact (c3_audit_single_entry.2.2.2.2 (orderState "Draft") adminCU rfl).trans
      (by decide)

/-- Eleven Active products, all with `current_stock = 0` below their
minimum levels `1..11` — more qualifying rows than the LIMIT 10 of the query. -/
def c8DB : DB :=
  { emptyDB with products :=
      [⟨1, "S", "P", 0, 0, 1, 0, "Active"⟩, ⟨2, "S", "P", 0, 0, 2, 0, "Active"⟩,
       ⟨3, "S", "P", 0, 0, 3, 0, "Active"⟩, ⟨4, "S", "P", 0, 0, 4, 0, "Active"⟩,
       ⟨5, "S", "P", 0, 0, 5, 0, "Active"⟩, ⟨6, "S", "P", 0, 0, 6, 0, "Active"⟩,
       ⟨7, "S", "P", 0, 0, 7, 0, "Active"⟩, ⟨8, "S", "P", 0, 0, 8, 0, "Active"⟩,
       ⟨9, "S", "P", 0, 0, 9, 0, "Active"⟩, ⟨10, "S", "P", 0, 0, 10, 0, "Active"⟩,
       ⟨11, "S", "P", 0, 0, 11, 0, "Active"⟩] }

/-- C8, counterexample to the claim as stated: on `c8DB` eleven products
satisfy the low-stock condition but the alert list holds only ten of them —
the query ends in `LIMIT 10`, so it does not return *all* qualifying
products. -/
theorem c8_limit_counterexample :
    (lowStockFilter c8DB).length = 11 ∧ (low_stock_alerts c8DB).length = 10 := by
  have h : (lowStockFilter c8DB).length = 11 := by decide
  refine ⟨h, ?_⟩
  unfold low_stock_alerts
  rw [List.length_take, (List.perm_insertionSort deficitGE _).length_eq, h]
  decide

/-- C8, amended.  The stock-alert list contains only Active products with
`current_stock ≤ min_stock_level` drawn from the `products` table, is
ordered by deficit (`min_stock_level - current_stock`) descending, contains
*every* qualifying product whenever at most ten qualify, and always has
exactly `min(number of qualifying products, 10)` entries. -/
theorem c8_low_stock_alerts (db : DB) :
    (∀ p ∈ low_stock_alerts db,
      p ∈ db.products ∧ p.status = "Active" ∧ p.current_stock ≤ p.min_stock_level)
    ∧ (low_stock_alerts db).Pairwise deficitGE
    ∧ ((lowStockFilter db).length ≤ 10 →
      ∀ p ∈ db.products, p.status = "Active" → p.current_stock ≤ p.min_stock_level →
        p ∈ low_stock_alerts db)
    ∧ (low_stock_alerts db).length = min (lowStockFilter db).length 10 := by
  refine ⟨?_, ?_, ?_, ?_⟩
  · intro p hp
    have hsort : p ∈ List.insertionSort deficitGE (lowStockFilter db) :=
      (List.take_sublist _ _).subset hp
    have hfilt : p ∈ lowStockFilter db :=
      (List.perm_insertionSort deficitGE _).mem_iff.mp hsort
    have hm := List.mem_filter.mp hfilt
    have hcond := of_decide_eq_true hm.2
    exact ⟨hm.1, hcond.2, hcond.1⟩
  · exact List.Pairwise.sublist (List.take_sublist _ _)
      (List.sorted_insertionSort deficitGE _)
  · intro hlen p hmem hstat hle
    have hfilt : p ∈ lowStockFilter db :=
      List.mem_filter.mpr ⟨hmem, decide_eq_true ⟨hle, hstat⟩⟩
    have hsort : p ∈ List.insertionSort deficitGE (lowStockFilter db) :=
      (List.perm_insertionSort deficitGE _).mem_iff.mpr hfilt
    unfold low_stock_alerts
    rw [List.take_of_length_le
      (by rw [(List.perm_insertionSort deficitGE _).length_eq]; exact hlen)]
    exact hsort
  · unfold low_stock_alerts
    rw [List.length_take, (List.perm_insertionSort deficitGE _).length_eq,
      Nat.min_comm]

/-- A small store for the C8 witness: one qualifying Active product, one
overstocked product, one Discontinued product. -/
def lowDB : DB :=
  { emptyDB with products :=
      [⟨1, "A", "P1", 0, 0, 5, 2, "Active"⟩,
       ⟨2, "B", "P2", 0, 0, 5, 9, "Active"⟩,
       ⟨3, "C", "P3", 0, 0, 5, 1, "Discontinued"⟩] }

/-- Witness for C8 on `lowDB`: the qualifying product is listed, the list
is deficit-ordered, and its length is `min(1, 10) = 1`. -/
theorem c8_low_stock_alerts_witness :
    (⟨1, "A", "P1", 0, 0, 5, 2, "Active"⟩ : Product) ∈ low_stock_alerts lowDB
    ∧ (low_stock_alerts lowDB).Pairwise deficitGE
    ∧ (low_stock_alerts lowDB).length = min (lowStockFilter lowDB).length 10 :=
  ⟨(c8_low_stock_alerts lowDB).2.2.1 (by decide)
      ⟨1, "A", "P1", 0, 0, 5, 2, "Active"⟩ (by decide) (by decide) (by decide),
   (c8_low_stock_alerts lowDB).2.1,
   (c8_low_stock_alerts lowDB).2.2.2⟩

/-- A form whose required fields are filled but whose status is outside the
enumerated domain: the validation in the dialog handler accepts it, only the sqlite
`CHECK` constraint rejects the INSERT. -/
def bogusForm : CustomerForm := { witForm with code := "C200", status := "Bogus" }

/-- C9, counterexample to the claim as stated: the insert with status
`"Bogus"` (a violation of the enumerated status domain) passes the
handwritten validation untouched (`validationErrors = []`) and fails only
on the database constraint, reported generically — *not* with a
ValidationError listing the failing field. -/
theorem c9_domain_counterexample :
    validationErrors bogusForm = []
    ∧ save_customer (orderState "Draft") none bogusForm
        = .error (.constraintViolation "customers.status")
    ∧ isValidationError (save_customer (orderState "Draft") none bogusForm) = false := by
  decide

/-- C9, amended.  `save_customer` checks only non-emptiness of `code`,
`name` and `status` itself: each of the three messages appears exactly when
its field is empty (so a ValidationError lists every *empty* field), and a
non-empty validation list aborts the call — for update as well as create —
with exactly that list before anything is written.  Status-domain membership
and code uniqueness are enforced by the sqlite `CHECK`/`UNIQUE` constraints,
whose violation aborts the insert with a constraint error instead of a
field-listing ValidationError; in every failure case nothing is committed,
and when all checks pass the new row (carrying the code, name and status
from the form) is appended. -/
theorem c9_save_customer_validation :
    (∀ form,
      ("Customer code is required" ∈ validationErrors form ↔ form.code = "")
      ∧ ("Customer name is required" ∈ validationErrors form ↔ form.name = "")
      ∧ ("Status is required" ∈ validationErrors form ↔ form.status = ""))
    ∧ (∀ st cid form, validationErrors form ≠ [] →
      save_customer st cid form = .error (.validationError (validationErrors form)))
    ∧ (∀ st form, validationErrors form = [] → form.status ∉ customerStatuses →
      save_customer st none form = .error (.constraintViolation "customers.status"))
    ∧ (∀ st form, validationErrors form = [] → form.status ∈ customerStatuses →
      (∃ c ∈ st.db.customers, c.code = form.code) →
      save_customer st none form = .error (.constraintViolation "customers.code"))
    ∧ (∀ st cu form, st.current_user = some cu → validationErrors form = [] →
      form.status ∈ customerStatuses →
      (¬ ∃ c ∈ st.db.customers, c.code = form.code) →
      customersOf (save_customer st none form)
        = some (st.db.customers
            ++ [newCustomer st.db.customers_seq st.now (some cu.id) form])) := by
  refine ⟨?_, ?_, ?_, ?_, ?_⟩
  · intro form
    refine ⟨?_, ?_, ?_⟩ <;>
      · simp only [validationErrors, List.mem_append]
        split_ifs <;> simp_all
  · intro st cid form hval
    unfold save_customer
    rw [if_neg hval]
  · intro st form hval hstat
    unfold save_customer
    rw [if_pos hval]
    dsimp only
    rw [if_pos hstat]
  · intro st form hval hstat hdup
    unfold save_customer
    rw [if_pos hval]
    dsimp only
    rw [if_neg (not_not_intro hstat), if_pos hdup]
  · intro st cu form hcu hval hstat hfresh
    unfold save_customer
    rw [if_pos hval, if_neg (not_not_intro hstat), if_neg hfresh, hcu]
    simp [customersOf, okState, auditInsert]

/-- A form with an empty name, and a form whose code collides with the
existing customer `C001`. -/
def noNameForm : CustomerForm := { witForm with name := "" }

/-- Witness for C9 at concrete inputs: the empty-name form is rejected with
exactly its one message, status `"Bogus"` trips the CHECK constraint, a
duplicate of code `C001` trips the UNIQUE constraint, and the fully valid
`witForm` row is appended. -/
theorem c9_save_customer_validation_witness :
    ("Customer name is required" ∈ validationErrors noNameForm ↔ noNameForm.name = "")
    ∧ save_customer (orderState "Draft") (some 1) noNameForm
        = .error (.validationError (validationErrors noNameForm))
    ∧ save_customer (orderState "Draft") none bogusForm
        = .error (.constraintViolation "customers.status")
    ∧ save_customer (orderState "Draft") none { witForm with code := "C001" }
        = .error (.constraintViolation "customers.code")
    ∧ customersOf (save_customer (orderState "Draft") none witForm)
        = some ((orderState "Draft").db.customers
            ++ [newCustomer 2 "2026-02-01 12:00:00" (some 1) witForm]) :=
  ⟨(c9_save_customer_validation.1 noNameForm).2.1,
   c9_save_customer_validation.2.1 (orderState "Draft") (some 1) noNameForm (by decide),
   c9_save_customer_validation.2.2.1 (orderState "Draft") bogusForm (by decide) (by decide),
   c9_save_customer_validation.2.2.2.1 (orderState "Draft")
     { witForm with code := "C001" } (by decide) (by decide) (by decide),
   (c9_save_customer_validation.2.2.2.2 (orderState "Draft") adminCU witForm rfl
     (by decide) (by decide) (by decide)).trans (by decide)⟩

end ERP
